import Mathlib

/-!
Verification development for the swiftbase-backend transaction lifecycle and
route-comparison engine.

The embedding below is a shallow model of `src/routes/transactions.js` and of
the exchange-rate service in `src/services` (the `ExchangeRateService` class):
machine numbers become `ℚ`, timestamps become `ℕ` milliseconds, database rows
become Lean structures, the fallible external calls of the background pipeline
become explicit `Except` arguments, and JavaScript truthiness checks on request
fields are modelled on `Option` values (`0`, `""` and absent fields are falsy).
`toFixed(2)` is modelled as exact decimal rounding to two fractional digits.
-/

namespace SwiftBase

/-- Transaction status values stored in the `status` column
(`'pending'`, `'processing'`, `'completed'`, `'failed'`). -/
inductive Status
  | pending
  | processing
  | completed
  | failed
deriving DecidableEq, Repr

/-- A row of the `transactions` table: the columns read or written by the
transaction routes (see `database/init.sql`). `NULL`able columns are
`Option`s; timestamps are natural-number clock readings. -/
structure Transaction where
  senderId : Nat
  recipientId : Nat
  paymentMethodId : Nat
  amountSent : ℚ
  currencySent : String
  currencyReceived : String
  exchangeRate : ℚ
  fee : ℚ
  amountReceived : Option ℚ
  xrplTxHash : Option String
  status : Status
  routeType : String
  notes : Option String
  createdAt : Nat
  completedAt : Option Nat
deriving DecidableEq, Repr

/-- Result of `paymentService.processPayment` (the orchestrator reads its
`success` flag and transaction id). -/
structure PaymentResult where
  success : Bool
  transactionId : String
deriving DecidableEq, Repr

/-- Result of `xrplService.processRemittance` (the orchestrator persists its
`xrplTxHash`). -/
structure XrplResult where
  xrplTxHash : String
deriving DecidableEq, Repr

/-- The recipient row read in step 3 of the pipeline (only its payout fields
are consumed, by the payout adapter). -/
structure RecipientRow where
  payoutType : String
deriving DecidableEq, Repr

/-- Result of `paymentService.processPayout`. -/
structure PayoutResult where
  payoutId : String
deriving DecidableEq, Repr

/-- Outcomes of the external calls made by one run of the background pipeline
`processTransaction`: payment capture, XRPL settlement, the recipient lookup,
the payout, and the clock reading `NOW()` used by the final update.  A thrown
JavaScript error is an `Except.error` carrying `error.message`. -/
structure PipelineEnv where
  payment : Except String PaymentResult
  xrpl : Except String XrplResult
  recipientRow : Except String RecipientRow
  payout : Except String PayoutResult
  now : Nat
deriving Repr

/-- The `catch` block of `processTransaction`: a single `UPDATE` setting
`status = 'failed'` and `notes = 'Error: ' + error.message`; no other column
is touched. -/
def failUpdate (tx : Transaction) (msg : String) : Transaction :=
  { tx with status := .failed, notes := some ("Error: " ++ msg) }

/-- The background pipeline `processTransaction` of
`src/routes/transactions.js`: payment capture, XRPL settlement, recipient
lookup, payout; on full success one `UPDATE` sets `status = 'completed'`,
`amount_received`, `xrpl_tx_hash` and `completed_at = NOW()` together; any
error lands in the `catch` block (`failUpdate`).  `amountReceived` is the
value computed by the create handler and passed in as an argument. -/
def processTransaction (tx : Transaction) (amountReceived : ℚ)
    (env : PipelineEnv) : Transaction :=
  match env.payment with
  | .error e => failUpdate tx e
  | .ok p =>
    if !p.success then failUpdate tx "Payment processing failed"
    else
      match env.xrpl with
      | .error e => failUpdate tx e
      | .ok x =>
        match env.recipientRow with
        | .error e => failUpdate tx e
        | .ok _ =>
          match env.payout with
          | .error e => failUpdate tx e
          | .ok _ =>
            { tx with
                status := .completed
                amountReceived := some amountReceived
                xrplTxHash := some x.xrplTxHash
                completedAt := some env.now }

/-- The proposition that some stage of the pipeline raises an error (or the
payment adapter reports `success: false`, which the orchestrator turns into a
thrown error). -/
def pipelineFails (env : PipelineEnv) : Prop :=
  (∃ e, env.payment = .error e)
    ∨ (∃ p, env.payment = .ok p ∧ p.success = false)
    ∨ (∃ e, env.xrpl = .error e)
    ∨ (∃ e, env.recipientRow = .error e)
    ∨ (∃ e, env.payout = .error e)

/-- Response of the cancel route: success, or the 400 reporting the current
status (`Cannot cancel transaction with status: ...`). -/
inductive CancelResponse
  | ok
  | invalidState (current : Status)
deriving DecidableEq, Repr

/-- The `POST /:id/cancel` handler applied to the transaction row it found:
only `'pending'` rows are updated (to `status = 'failed'`,
`notes = 'Cancelled by user'`); any other status yields the 400 response and
no write.  The second component is the row after the request. -/
def cancelTransaction (tx : Transaction) : CancelResponse × Transaction :=
  if tx.status ≠ .pending then (.invalidState tx.status, tx)
  else (.ok, { tx with status := .failed, notes := some "Cancelled by user" })

/-- The distinct validation failures of the `POST /create` handler. -/
inductive CreateError
  | missingFields
  | amountOutOfRange
  | recipientNotFound
  | paymentMethodNotFound
deriving DecidableEq, Repr

/-- The request body of `POST /create`; absent fields are `none`. -/
structure CreateRequest where
  recipientId : Option Nat
  paymentMethodId : Option Nat
  amount : Option ℚ
  fromCurrency : Option String
  toCurrency : Option String
  routeType : Option String
  notes : Option String
deriving DecidableEq, Repr

/-- The `INSERT INTO transactions` of the create handler: spread-adjusted
exchange rate (`rate * 0.997`), 1% fee, `status = 'processing'`,
`amount_received`, `xrpl_tx_hash` and `completed_at` left `NULL`, and
`created_at` defaulting to `NOW()`. -/
def createTransaction (userId recipientId paymentMethodId : Nat) (amount : ℚ)
    (fromCurrency toCurrency routeType : String) (notes : Option String)
    (rate : ℚ) (now : Nat) : Transaction :=
  { senderId := userId
    recipientId := recipientId
    paymentMethodId := paymentMethodId
    amountSent := amount
    currencySent := fromCurrency
    currencyReceived := toCurrency
    exchangeRate := rate * (997 / 1000)
    fee := amount * (1 / 100)
    amountReceived := none
    xrplTxHash := none
    status := .processing
    routeType := routeType
    notes := notes
    createdAt := now
    completedAt := none }

/-- The validation and insertion of `POST /create`.  `recipients` and
`paymentMethods` are the `(id, user_id)` pairs of the corresponding tables;
the two ownership `SELECT`s are membership tests against them.  The missing
field check is JavaScript truthiness (`0` and `""` are falsy); the amount
check is `amount < 10 || amount > 10000`; `rate` is the mid-market rate the
handler fetched.  On a validation failure nothing is persisted. -/
def createHandler (userId : Nat) (recipients paymentMethods : List (Nat × Nat))
    (req : CreateRequest) (rate : ℚ) (now : Nat) :
    Except CreateError Transaction :=
  match req.recipientId, req.paymentMethodId, req.amount,
      req.fromCurrency, req.toCurrency, req.routeType with
  | some rid, some pmid, some a, some fc, some tc, some rt =>
    if rid = 0 ∨ pmid = 0 ∨ a = 0 ∨ fc = "" ∨ tc = "" ∨ rt = "" then
      .error .missingFields
    else if a < 10 ∨ 10000 < a then
      .error .amountOutOfRange
    else if (rid, userId) ∉ recipients then
      .error .recipientNotFound
    else if (pmid, userId) ∉ paymentMethods then
      .error .paymentMethodNotFound
    else
      .ok (createTransaction userId rid pmid a fc tc rt req.notes rate now)
  | _, _, _, _, _, _ => .error .missingFields

/-- All transaction states reachable from a given row through the operations
of this core: runs of the background pipeline and cancel requests. -/
inductive Reaches : Transaction → Transaction → Prop
  | refl (tx : Transaction) : Reaches tx tx
  | pipeline {a b : Transaction} (amt : ℚ) (env : PipelineEnv) :
      Reaches a b → Reaches a (processTransaction b amt env)
  | cancel {a b : Transaction} :
      Reaches a b → Reaches a (cancelTransaction b).2

/-- The display rounding `x.toFixed(2)` (later read back with `parseFloat`),
modelled as exact rounding to two fractional decimal digits. -/
def round2 (q : ℚ) : ℚ := (round (q * 100) : ℚ) / 100

/-- One route quote of the `POST /compare-routes` response. -/
structure Route where
  provider : String
  type : String
  amountSent : ℚ
  fee : ℚ
  exchangeRate : ℚ
  estimatedTime : String
  amountReceived : ℚ
  savings : ℚ
  savingsPercent : ℚ
  recommended : Bool
  description : String
deriving DecidableEq, Repr, Inhabited

/-- The `routes` array literal of the compare-routes handler, before the
savings pass and the sort: the XRPL direct route (1% fee, 0.3% spread,
flagged `recommended`), the traditional bank transfer (5% + $5 fee, 3%
spread) and the competitor service (1.5% + $3 fee, 1% spread).
`amount` is the requested amount and `rate` the mid-market rate. -/
def routesFor (amount rate : ℚ) : List Route :=
  [ { provider := "SwiftBridge XRPL"
      type := "xrpl_direct"
      amountSent := amount
      fee := amount * (1 / 100)
      exchangeRate := rate * (997 / 1000)
      estimatedTime := "5-10 minutes"
      amountReceived := round2 ((amount - amount * (1 / 100)) * rate * (997 / 1000))
      savings := 0
      savingsPercent := 0
      recommended := true
      description := "Fast blockchain transfer via XRPL network" },
    { provider := "Traditional Bank Transfer"
      type := "bank_transfer"
      amountSent := amount
      fee := amount * (5 / 100) + 5
      exchangeRate := rate * (97 / 100)
      estimatedTime := "1-3 business days"
      amountReceived := round2 ((amount - (amount * (5 / 100) + 5)) * rate * (97 / 100))
      savings := 0
      savingsPercent := 0
      recommended := false
      description := "Standard international wire transfer" },
    { provider := "Competitor Service"
      type := "competitor"
      amountSent := amount
      fee := amount * (15 / 1000) + 3
      exchangeRate := rate * (99 / 100)
      estimatedTime := "1 business day"
      amountReceived := round2 ((amount - (amount * (15 / 1000) + 3)) * rate * (99 / 100))
      savings := 0
      savingsPercent := 0
      recommended := false
      description := "Third-party remittance service" } ]

/-- The value `routes[1].amountReceived`: the baseline the savings pass compares
against (the traditional bank transfer is the second array element). -/
def traditionalReceived (amount rate : ℚ) : ℚ :=
  ((routesFor amount rate).getD 1 default).amountReceived

/-- The descending-by-`amountReceived` order used by the handler's sort
comparator `(a, b) => parseFloat(b.amountReceived) - parseFloat(a.amountReceived)`:
`x` may come before `y` when `y` receives no more than `x`. -/
def routeGE (x y : Route) : Prop := y.amountReceived ≤ x.amountReceived

instance : DecidableRel routeGE := fun x y =>
  inferInstanceAs (Decidable (y.amountReceived ≤ x.amountReceived))

instance : IsTotal Route routeGE :=
  ⟨fun x y => le_total y.amountReceived x.amountReceived⟩

instance : IsTrans Route routeGE :=
  ⟨fun _ _ _ hab hbc => le_trans hbc hab⟩

/-- The body of `POST /compare-routes` after the rate fetch: build the three
quotes, write each route's savings against the traditional route
(`savings = received - traditional`, `savingsPercent = savings / traditional * 100`,
both displayed through `toFixed(2)`), then sort descending by amount
received. -/
def compareRoutes (amount rate : ℚ) : List Route :=
  let traditionalAmount := traditionalReceived amount rate
  ((routesFor amount rate).map fun rt =>
      { rt with
          savings := round2 (rt.amountReceived - traditionalAmount)
          savingsPercent :=
            round2 ((rt.amountReceived - traditionalAmount) / traditionalAmount * 100) }
    ).insertionSort routeGE

/-- The validation failures the compare-routes handler can return: the only
400s it produces are the missing-fields response and the
minimum-amount (`InvalidAmount`) response. -/
inductive CompareError
  | missingFields
  | invalidAmount
deriving DecidableEq, Repr

/-- The input validation of `POST /compare-routes`:
`if (!amount || !fromCurrency || !toCurrency)` then the missing-fields 400,
else `if (amount < 10)` then the minimum-amount 400.  JavaScript truthiness
makes `0` and the empty string count as missing.  There is no further check
on the currency codes. -/
def validateCompare (amount : Option ℚ) (fromCurrency toCurrency : Option String) :
    Option CompareError :=
  if amount.getD 0 = 0 ∨ fromCurrency.getD "" = "" ∨ toCurrency.getD "" = "" then
    some .missingFields
  else if amount.getD 0 < 10 then
    some .invalidAmount
  else
    none

/-- The rate object produced by `ExchangeRateService`: on upstream success
`mock` is absent (here `false`); the static-table fallback sets
`mock: true`. -/
structure RateData where
  rate : ℚ
  timestamp : Nat
  from_ : String
  to_ : String
  mock : Bool
deriving DecidableEq, Repr

/-- One value of the service's `Map`: the returned data and the instant it
was cached. -/
structure CacheEntry where
  data : RateData
  timestamp : Nat
deriving DecidableEq, Repr

/-- The mutable state of `ExchangeRateService`: its cache `Map`, modelled as
an association list where the most recent binding for a key shadows older
ones. -/
structure RateServiceState where
  cache : List (String × CacheEntry)
deriving DecidableEq, Repr

/-- The freshness window `this.cacheExpiry` in milliseconds, set once in the
constructor. -/
def cacheExpiry : Nat := 60000

/-- The cache key of `getRate`: the template literal `from + '_' + to`. -/
def cacheKey (from_ to_ : String) : String := from_ ++ "_" ++ to_

/-- The static fallback table of `getMockRate`, keyed by the ordered pair. -/
def mockRates : List (String × ℚ) :=
  [("USD_MXN", 35 / 2), ("USD_PHP", 56), ("USD_INR", 83), ("USD_NGN", 1550)]

/-- The fallback `getMockRate`: the static-table rate (defaulting to `1.0`), flagged
`mock: true`; nothing is cached. -/
def getMockRate (from_ to_ : String) (now : Nat) : RateData :=
  { rate := (mockRates.lookup (from_ ++ "_" ++ to_)).getD 1
    timestamp := now
    from_ := from_
    to_ := to_
    mock := true }

/-- The full outcome of one `getRate` call: the returned data, the service
state afterwards, and whether the upstream provider was invoked. -/
structure RateResult where
  data : RateData
  state : RateServiceState
  calledUpstream : Bool
deriving DecidableEq, Repr

/-- The cache-miss tail of `getRate`: invoke the upstream provider; on
success build the result, cache it under the ordered-pair key and return it;
on any upstream failure fall back to `getMockRate` without touching the
cache. -/
def fetchRate (s : RateServiceState) (from_ to_ : String) (now : Nat)
    (upstream : Except String ℚ) : RateResult :=
  match upstream with
  | .ok r =>
    let result : RateData :=
      { rate := r, timestamp := now, from_ := from_, to_ := to_, mock := false }
    { data := result
      state := ⟨(cacheKey from_ to_, { data := result, timestamp := now }) :: s.cache⟩
      calledUpstream := true }
  | .error _ =>
    { data := getMockRate from_ to_ now, state := s, calledUpstream := true }

/-- The method `ExchangeRateService.getRate`: serve the cached entry when one exists for
the ordered-pair key and `now - cached.timestamp < cacheExpiry`; otherwise
invoke upstream (`fetchRate`).  `upstream` is the outcome the provider would
deliver if invoked. -/
def getRate (s : RateServiceState) (from_ to_ : String) (now : Nat)
    (upstream : Except String ℚ) : RateResult :=
  match s.cache.lookup (cacheKey from_ to_) with
  | some cached =>
    if now - cached.timestamp < cacheExpiry then
      { data := cached.data, state := s, calledUpstream := false }
    else
      fetchRate s from_ to_ now upstream
  | none => fetchRate s from_ to_ now upstream

/-- A concrete `'processing'` transaction row, as the create handler inserts
it for a $100 USD→MXN transfer at mid-market rate 17.5. -/
def sampleTx : Transaction :=
  { senderId := 1
    recipientId := 2
    paymentMethodId := 3
    amountSent := 100
    currencySent := "USD"
    currencyReceived := "MXN"
    exchangeRate := 6979 / 400
    fee := 1
    amountReceived := none
    xrplTxHash := none
    status := .processing
    routeType := "xrpl_direct"
    notes := none
    createdAt := 0
    completedAt := none }

/-- The same row still in the `'pending'` staging state. -/
def samplePendingTx : Transaction := { sampleTx with status := .pending }

/-- A pipeline run in which every external call succeeds. -/
def sampleEnvOk : PipelineEnv :=
  { payment := .ok ⟨true, "pay_1"⟩
    xrpl := .ok ⟨"XRPL_ABC"⟩
    recipientRow := .ok ⟨"bank"⟩
    payout := .ok ⟨"payout_1"⟩
    now := 5 }

/-- A pipeline run in which the payment capture throws. -/
def sampleEnvFail : PipelineEnv :=
  { payment := .error "Card declined"
    xrpl := .ok ⟨"XRPL_ABC"⟩
    recipientRow := .ok ⟨"bank"⟩
    payout := .ok ⟨"payout_1"⟩
    now := 5 }

/-- A fully populated create request. -/
def sampleReq : CreateRequest :=
  ⟨some 2, some 3, some 100, some "USD", some "MXN", some "xrpl_direct", none⟩

/-- The row `createHandler` inserts for `sampleReq` at rate 17.5. -/
def sampleCreatedTx : Transaction :=
  createTransaction 1 2 3 100 "USD" "MXN" "xrpl_direct" none (35 / 2) 0

/-- The rate object a successful USD→MXN upstream call at instant 0 yields. -/
def sampleRateData : RateData := ⟨35 / 2, 0, "USD", "MXN", false⟩

/-- The service state after that call: one fresh `USD_MXN` cache entry. -/
def sampleRateState : RateServiceState := ⟨[("USD_MXN", ⟨sampleRateData, 0⟩)]⟩

/-- Every run of the background pipeline either lands in the `catch` block
(a `failUpdate`) or performs the single completed-update, the latter only
when payment capture, settlement, recipient lookup and payout all
succeeded. -/
lemma processTransaction_shape (tx : Transaction) (amt : ℚ) (env : PipelineEnv) :
    (∃ msg, processTransaction tx amt env = failUpdate tx msg)
    ∨ (∃ p x r po, env.payment = Except.ok p ∧ p.success = true
        ∧ env.xrpl = Except.ok x ∧ env.recipientRow = Except.ok r
        ∧ env.payout = Except.ok po
        ∧ processTransaction tx amt env =
            { tx with
                status := .completed
                amountReceived := some amt
                xrplTxHash := some x.xrplTxHash
                completedAt := some env.now }) := by
  rcases hp : env.payment with e | p
  · exact Or.inl ⟨e, by simp [processTransaction, hp]⟩
  · rcases hps : p.success with _ | _
    · exact Or.inl ⟨"Payment processing failed", by simp [processTransaction, hp, hps]⟩
    · rcases hx : env.xrpl with e | x
      · exact Or.inl ⟨e, by simp [processTransaction, hp, hps, hx]⟩
      · rcases hrr : env.recipientRow with e | r
        · exact Or.inl ⟨e, by simp [processTransaction, hp, hps, hx, hrr]⟩
        · rcases hpo : env.payout with e | po
          · exact Or.inl ⟨e, by simp [processTransaction, hp, hps, hx, hrr, hpo]⟩
          · exact Or.inr ⟨p, x, r, po, hp ▸ rfl, hps ▸ rfl, hx ▸ rfl, hrr ▸ rfl,
              hpo ▸ rfl, by simp [processTransaction, hp, hps, hx, hrr, hpo]⟩

/-- C1: when every pipeline stage succeeds, the orchestrator persists
`status = 'completed'`, a non-null amount received, a non-null settlement
reference and a non-null completed-at in one atomic update (a single record
update in this model), and the completion instant is no earlier than
`created_at`. -/
theorem processTransaction_success (tx : Transaction) (amt : ℚ) (env : PipelineEnv)
    (p : PaymentResult) (x : XrplResult)
    (hp : env.payment = Except.ok p) (hps : p.success = true)
    (hx : env.xrpl = Except.ok x)
    (hrr : ∃ r, env.recipientRow = Except.ok r)
    (hpo : ∃ po, env.payout = Except.ok po)
    (hclock : tx.createdAt ≤ env.now) :
    processTransaction tx amt env =
      { tx with
          status := .completed
          amountReceived := some amt
          xrplTxHash := some x.xrplTxHash
          completedAt := some env.now }
    ∧ (processTransaction tx amt env).status = .completed
    ∧ (processTransaction tx amt env).amountReceived = some amt
    ∧ (processTransaction tx amt env).xrplTxHash = some x.xrplTxHash
    ∧ (processTransaction tx amt env).completedAt = some env.now
    ∧ ∀ c, (processTransaction tx amt env).completedAt = some c →
        tx.createdAt ≤ c := by
  obtain ⟨r, hrr⟩ := hrr
  obtain ⟨po, hpo⟩ := hpo
  have hmain : processTransaction tx amt env =
      { tx with
          status := .completed
          amountReceived := some amt
          xrplTxHash := some x.xrplTxHash
          completedAt := some env.now } := by
    simp [processTransaction, hp, hps, hx, hrr, hpo]
  refine ⟨hmain, ?_, ?_, ?_, ?_, ?_⟩
  · rw [hmain]
  · rw [hmain]
  · rw [hmain]
  · rw [hmain]
  · intro c hc
    rw [hmain] at hc
    simp only [Option.some.injEq] at hc
    exact hc ▸ hclock

/-- Closed instance of `processTransaction_success` on `sampleTx` with every
stage succeeding. -/
theorem processTransaction_success_witness :
    (processTransaction sampleTx (17273 / 10) sampleEnvOk).status = Status.completed
    ∧ (processTransaction sampleTx (17273 / 10) sampleEnvOk).amountReceived
        = some (17273 / 10)
    ∧ (processTransaction sampleTx (17273 / 10) sampleEnvOk).completedAt = some 5 := by
  have h := processTransaction_success sampleTx (17273 / 10) sampleEnvOk
    ⟨true, "pay_1"⟩ ⟨"XRPL_ABC"⟩ rfl rfl rfl ⟨⟨"bank"⟩, rfl⟩ ⟨⟨"payout_1"⟩, rfl⟩
    (by decide)
  exact ⟨h.2.1, h.2.2.1, h.2.2.2.2.1⟩

/-- C2: when any pipeline stage raises, the orchestrator writes
`status = 'failed'` and a diagnostic `notes`, and changes nothing else:
`completed_at` is not set, `amount_received` stays as it was (null for a
freshly created row), and the run never reaches `'completed'`. -/
theorem processTransaction_failure (tx : Transaction) (amt : ℚ) (env : PipelineEnv)
    (h : pipelineFails env) :
    (∃ msg, processTransaction tx amt env =
        { tx with status := .failed, notes := some ("Error: " ++ msg) })
    ∧ (processTransaction tx amt env).status = .failed
    ∧ (processTransaction tx amt env).status ≠ .completed
    ∧ (processTransaction tx amt env).completedAt = tx.completedAt
    ∧ (processTransaction tx amt env).amountReceived = tx.amountReceived
    ∧ (tx.amountReceived = none → (processTransaction tx amt env).amountReceived = none)
    ∧ (∃ msg, (processTransaction tx amt env).notes = some ("Error: " ++ msg)) := by
  rcases processTransaction_shape tx amt env with ⟨msg, hm⟩ |
    ⟨p, x, r, po, hp, hps, hx, hrr, hpo, _⟩
  · refine ⟨⟨msg, hm⟩, ?_, ?_, ?_, ?_, ?_, ⟨msg, ?_⟩⟩ <;> rw [hm] <;> simp [failUpdate]
  · exfalso
    rcases h with ⟨e, he⟩ | ⟨p', hp', hps'⟩ | ⟨e, he⟩ | ⟨e, he⟩ | ⟨e, he⟩ <;> simp_all

/-- Closed instance of `processTransaction_failure` on `sampleTx` with the
payment capture throwing. -/
theorem processTransaction_failure_witness :
    (processTransaction sampleTx (17273 / 10) sampleEnvFail).status = Status.failed
    ∧ (processTransaction sampleTx (17273 / 10) sampleEnvFail).amountReceived = none
    ∧ (processTransaction sampleTx (17273 / 10) sampleEnvFail).completedAt = none := by
  have h := processTransaction_failure sampleTx (17273 / 10) sampleEnvFail
    (Or.inl ⟨"Card declined", rfl⟩)
  exact ⟨h.2.1, h.2.2.2.2.2.1 rfl, h.2.2.2.1⟩

/-- C3: cancellation succeeds exactly on `'pending'` rows (turning them
`'failed'`); on any other status it answers the 400 carrying the current
status and writes nothing. -/
theorem cancelTransaction_spec (tx : Transaction) :
    ((cancelTransaction tx).1 = .ok ↔ tx.status = .pending)
    ∧ (tx.status = .pending →
        (cancelTransaction tx).1 = .ok
        ∧ (cancelTransaction tx).2 =
            { tx with status := .failed, notes := some "Cancelled by user" })
    ∧ (tx.status ≠ .pending →
        (cancelTransaction tx).1 = .invalidState tx.status
        ∧ (cancelTransaction tx).2 = tx) := by
  by_cases h : tx.status = .pending <;> simp [cancelTransaction, h]

/-- Closed instance of `cancelTransaction_spec`: cancelling a pending row
succeeds, cancelling a processing row is rejected with its status and leaves
the row unchanged. -/
theorem cancelTransaction_spec_witness :
    (cancelTransaction samplePendingTx).1 = CancelResponse.ok
    ∧ (cancelTransaction sampleTx).1 = CancelResponse.invalidState Status.processing
    ∧ (cancelTransaction sampleTx).2 = sampleTx := by
  have h1 := (cancelTransaction_spec samplePendingTx).1.mpr rfl
  have h2 := (cancelTransaction_spec sampleTx).2.2 (by decide)
  exact ⟨h1, h2.1, h2.2⟩

/-- A pipeline run always lands in one of the two terminal statuses. -/
lemma processTransaction_status_terminal (tx : Transaction) (amt : ℚ)
    (env : PipelineEnv) :
    (processTransaction tx amt env).status = .completed
    ∨ (processTransaction tx amt env).status = .failed := by
  rcases processTransaction_shape tx amt env with ⟨msg, hm⟩ |
    ⟨p, x, r, po, _, _, _, _, _, hm⟩
  · exact Or.inr (by rw [hm]; rfl)
  · exact Or.inl (by rw [hm])

/-- A successful cancel presupposes a `'pending'` row. -/
lemma cancelTransaction_ok_of_pending (tx : Transaction)
    (h : (cancelTransaction tx).1 = .ok) : tx.status = .pending := by
  by_cases hp : tx.status = .pending
  · exact hp
  · simp [cancelTransaction, hp] at h

/-- Statuses other than `'pending'` are preserved by every operation of the
core: no pipeline run or cancel request ever produces a `'pending'` row. -/
lemma reaches_status_ne_pending {a tx : Transaction}
    (h0 : a.status ≠ .pending) (h : Reaches a tx) : tx.status ≠ .pending := by
  induction h with
  | refl => exact h0
  | @pipeline b amt env _ _ =>
    rcases processTransaction_status_terminal b amt env with hc | hc <;>
      rw [hc] <;> simp
  | @cancel b _ ih =>
    have hb : b.status ≠ .pending := ih
    rw [cancelTransaction, if_pos hb]
    exact hb

/-- C10: every row the create handler persists starts in `'processing'`
(never `'pending'`), so no state reachable from it through pipeline runs and
cancel requests is cancellable: the cancel operation can never answer
success. -/
theorem createHandler_never_cancellable (userId : Nat)
    (recipients paymentMethods : List (Nat × Nat)) (req : CreateRequest)
    (rate : ℚ) (now : Nat) (tx0 : Transaction)
    (h : createHandler userId recipients paymentMethods req rate now =
        Except.ok tx0) :
    tx0.status = .processing
    ∧ ∀ tx, Reaches tx0 tx →
        tx.status ≠ .pending ∧ (cancelTransaction tx).1 ≠ .ok := by
  have hst : tx0.status = .processing := by
    obtain ⟨orid, opmid, oa, ofc, otc, ort, onotes⟩ := req
    cases orid <;> cases opmid <;> cases oa <;> cases ofc <;> cases otc <;>
      cases ort <;> simp only [createHandler] at h <;>
      try exact Except.noConfusion h
    split_ifs at h
    rw [Except.ok.injEq] at h
    rw [← h]
    rfl
  refine ⟨hst, fun tx hr => ?_⟩
  have hnp : tx.status ≠ .pending :=
    reaches_status_ne_pending (by rw [hst]; simp) hr
  exact ⟨hnp, fun hok => hnp (cancelTransaction_ok_of_pending tx hok)⟩

/-- Closed instance of `createHandler_never_cancellable` on `sampleReq`. -/
theorem createHandler_never_cancellable_witness :
    sampleCreatedTx.status = Status.processing
    ∧ (cancelTransaction sampleCreatedTx).1 ≠ CancelResponse.ok := by
  have h := createHandler_never_cancellable 1 [(2, 1)] [(3, 1)] sampleReq
    (35 / 2) 0 sampleCreatedTx rfl
  exact ⟨h.1, (h.2 sampleCreatedTx (Reaches.refl _)).2⟩

/-- C4: the create handler validates in order — truthiness of the required
fields, then the inclusive [10, 10000] amount window, then recipient
ownership, then payment-method ownership — each failure distinct, and only
after all four does it insert the row. -/
theorem createHandler_validation_order (userId rid pmid : Nat)
    (recipients paymentMethods : List (Nat × Nat)) (a : ℚ) (fc tc rt : String)
    (notes : Option String) (rate : ℚ) (now : Nat)
    (hrid : rid ≠ 0) (hpmid : pmid ≠ 0) (hfc : fc ≠ "") (htc : tc ≠ "")
    (hrt : rt ≠ "") :
    (createHandler userId recipients paymentMethods
        ⟨none, some pmid, some a, some fc, some tc, some rt, notes⟩ rate now
        = .error .missingFields)
    ∧ (a ≠ 0 → a < 10 ∨ 10000 < a →
        createHandler userId recipients paymentMethods
          ⟨some rid, some pmid, some a, some fc, some tc, some rt, notes⟩ rate now
          = .error .amountOutOfRange)
    ∧ (10 ≤ a → a ≤ 10000 → (rid, userId) ∉ recipients →
        createHandler userId recipients paymentMethods
          ⟨some rid, some pmid, some a, some fc, some tc, some rt, notes⟩ rate now
          = .error .recipientNotFound)
    ∧ (10 ≤ a → a ≤ 10000 → (rid, userId) ∈ recipients →
        (pmid, userId) ∉ paymentMethods →
        createHandler userId recipients paymentMethods
          ⟨some rid, some pmid, some a, some fc, some tc, some rt, notes⟩ rate now
          = .error .paymentMethodNotFound)
    ∧ (10 ≤ a → a ≤ 10000 → (rid, userId) ∈ recipients →
        (pmid, userId) ∈ paymentMethods →
        createHandler userId recipients paymentMethods
          ⟨some rid, some pmid, some a, some fc, some tc, some rt, notes⟩ rate now
          = .ok (createTransaction userId rid pmid a fc tc rt notes rate now)) := by
  refine ⟨?_, ?_, ?_, ?_, ?_⟩
  · simp [createHandler]
  · intro ha0 hrange
    simp [createHandler, hrid, hpmid, ha0, hfc, htc, hrt, hrange]
  · intro ha hb hmem
    have ha0 : a ≠ 0 := by intro h0; rw [h0] at ha; norm_num at ha
    have h1 : ¬(a < 10) := not_lt.mpr ha
    have h2 : ¬(10000 < a) := not_lt.mpr hb
    simp [createHandler, hrid, hpmid, ha0, hfc, htc, hrt, h1, h2, hmem]
  · intro ha hb hmem hpm
    have ha0 : a ≠ 0 := by intro h0; rw [h0] at ha; norm_num at ha
    have h1 : ¬(a < 10) := not_lt.mpr ha
    have h2 : ¬(10000 < a) := not_lt.mpr hb
    simp [createHandler, hrid, hpmid, ha0, hfc, htc, hrt, h1, h2, hmem, hpm]
  · intro ha hb hmem hpm
    have ha0 : a ≠ 0 := by intro h0; rw [h0] at ha; norm_num at ha
    have h1 : ¬(a < 10) := not_lt.mpr ha
    have h2 : ¬(10000 < a) := not_lt.mpr hb
    simp [createHandler, hrid, hpmid, ha0, hfc, htc, hrt, h1, h2, hmem, hpm]

/-- Closed instances of `createHandler_validation_order`: amount 5 and
amount 10000.01 are rejected as out of range, amounts 10 and 10000 pass
every validation, and an unowned recipient is a distinct not-found
failure. -/
theorem createHandler_validation_order_witness :
    (createHandler 1 [(2, 1)] [(3, 1)]
        ⟨some 2, some 3, some 5, some "USD", some "MXN", some "xrpl_direct", none⟩
        (35 / 2) 0 = .error .amountOutOfRange)
    ∧ (createHandler 1 [(2, 1)] [(3, 1)]
        ⟨some 2, some 3, some (1000001 / 100), some "USD", some "MXN",
          some "xrpl_direct", none⟩ (35 / 2) 0 = .error .amountOutOfRange)
    ∧ (createHandler 1 [(2, 1)] [(3, 1)]
        ⟨some 2, some 3, some 10, some "USD", some "MXN", some "xrpl_direct", none⟩
        (35 / 2) 0
        = .ok (createTransaction 1 2 3 10 "USD" "MXN" "xrpl_direct" none (35 / 2) 0))
    ∧ (createHandler 1 [(2, 1)] [(3, 1)]
        ⟨some 2, some 3, some 10000, some "USD", some "MXN", some "xrpl_direct", none⟩
        (35 / 2) 0
        = .ok (createTransaction 1 2 3 10000 "USD" "MXN" "xrpl_direct" none (35 / 2) 0))
    ∧ (createHandler 1 [] [(3, 1)]
        ⟨some 2, some 3, some 100, some "USD", some "MXN", some "xrpl_direct", none⟩
        (35 / 2) 0 = .error .recipientNotFound) := by
  refine ⟨?_, ?_, ?_, ?_, ?_⟩
  · exact (createHandler_validation_order 1 2 3 [(2, 1)] [(3, 1)] 5 "USD" "MXN"
      "xrpl_direct" none (35 / 2) 0 (by decide) (by decide) (by decide) (by decide)
      (by decide)).2.1 (by norm_num) (Or.inl (by norm_num))
  · exact (createHandler_validation_order 1 2 3 [(2, 1)] [(3, 1)] (1000001 / 100)
      "USD" "MXN" "xrpl_direct" none (35 / 2) 0 (by decide) (by decide) (by decide)
      (by decide) (by decide)).2.1 (by norm_num) (Or.inr (by norm_num))
  · exact (createHandler_validation_order 1 2 3 [(2, 1)] [(3, 1)] 10 "USD" "MXN"
      "xrpl_direct" none (35 / 2) 0 (by decide) (by decide) (by decide) (by decide)
      (by decide)).2.2.2.2 (by norm_num) (by norm_num) (by decide) (by decide)
  · exact (createHandler_validation_order 1 2 3 [(2, 1)] [(3, 1)] 10000 "USD" "MXN"
      "xrpl_direct" none (35 / 2) 0 (by decide) (by decide) (by decide) (by decide)
      (by decide)).2.2.2.2 (by norm_num) (by norm_num) (by decide) (by decide)
  · exact (createHandler_validation_order 1 2 3 [] [(3, 1)] 100 "USD" "MXN"
      "xrpl_direct" none (35 / 2) 0 (by decide) (by decide) (by decide) (by decide)
      (by decide)).2.2.1 (by norm_num) (by norm_num) (by decide)

/-- C5: for every amount and rate the compare-routes response is ordered
descending by amount received, exactly one returned route carries the
`recommended` flag, and that route is the XRPL direct one, wherever the sort
placed it. -/
theorem compareRoutes_sorted_one_recommended (amount rate : ℚ)
    (_ha : 10 ≤ amount) (_hr : 0 < rate) :
    List.Sorted routeGE (compareRoutes amount rate)
    ∧ (compareRoutes amount rate).countP (fun rt => rt.recommended) = 1
    ∧ ∀ rt ∈ compareRoutes amount rate, rt.recommended = true →
        rt.type = "xrpl_direct" := by
  refine ⟨?_, ?_, ?_⟩
  · exact List.sorted_insertionSort routeGE _
  · rw [show compareRoutes amount rate =
        List.insertionSort routeGE
          ((routesFor amount rate).map fun rt =>
            { rt with
                savings := round2 (rt.amountReceived - traditionalReceived amount rate)
                savingsPercent :=
                  round2 ((rt.amountReceived - traditionalReceived amount rate)
                    / traditionalReceived amount rate * 100) }) from rfl,
      (List.perm_insertionSort routeGE _).countP_eq]
    rfl
  · intro rt hmem hrec
    have hmem' : rt ∈ (routesFor amount rate).map fun rt =>
        { rt with
            savings := round2 (rt.amountReceived - traditionalReceived amount rate)
            savingsPercent :=
              round2 ((rt.amountReceived - traditionalReceived amount rate)
                / traditionalReceived amount rate * 100) } := by
      rw [← List.mem_insertionSort routeGE]
      exact hmem
    simp only [routesFor, List.map_cons, List.map_nil, List.mem_cons,
      List.not_mem_nil, or_false] at hmem'
    rcases hmem' with h | h | h <;> subst h
    · rfl
    · exact absurd hrec (by simp)
    · exact absurd hrec (by simp)

/-- Closed instance of `compareRoutes_sorted_one_recommended` at amount 100
and rate 17.5. -/
theorem compareRoutes_sorted_one_recommended_witness :
    List.Sorted routeGE (compareRoutes 100 (35 / 2))
    ∧ (compareRoutes 100 (35 / 2)).countP (fun rt => rt.recommended) = 1
    ∧ ∀ rt ∈ compareRoutes 100 (35 / 2), rt.recommended = true →
        rt.type = "xrpl_direct" :=
  compareRoutes_sorted_one_recommended 100 (35 / 2) (by norm_num) (by norm_num)

/-- Two-digit decimals are fixed points of `round2`. -/
lemma round2_intCast_div (n : ℤ) : round2 ((n : ℚ) / 100) = (n : ℚ) / 100 := by
  unfold round2
  rw [div_mul_cancel₀ _ (by norm_num : (100 : ℚ) ≠ 0), round_intCast]

/-- A difference of two already rounded values is unchanged by a further
rounding (`toFixed(2)` of a difference of two-digit decimals). -/
lemma round2_sub_round2 (x y : ℚ) :
    round2 (round2 x - round2 y) = round2 x - round2 y := by
  have h : round2 x - round2 y =
      ((round (x * 100) - round (y * 100) : ℤ) : ℚ) / 100 := by
    unfold round2
    push_cast
    ring
  rw [h, round2_intCast_div]

/-- Every route of the compare-routes response is one of the three base
quotes with its savings fields filled in by the savings pass. -/
lemma mem_compareRoutes_shape (amount rate : ℚ) (rt : Route)
    (h : rt ∈ compareRoutes amount rate) :
    ∃ rt0 ∈ routesFor amount rate,
      rt = { rt0 with
        savings := round2 (rt0.amountReceived - traditionalReceived amount rate)
        savingsPercent :=
          round2 ((rt0.amountReceived - traditionalReceived amount rate)
            / traditionalReceived amount rate * 100) } := by
  have h' : rt ∈ (routesFor amount rate).map fun rt =>
      { rt with
          savings := round2 (rt.amountReceived - traditionalReceived amount rate)
          savingsPercent :=
            round2 ((rt.amountReceived - traditionalReceived amount rate)
              / traditionalReceived amount rate * 100) } := by
    rw [← List.mem_insertionSort routeGE]
    exact h
  obtain ⟨rt0, h0, heq⟩ := List.mem_map.1 h'
  exact ⟨rt0, h0, heq.symm⟩

/-- Each base quote's `amountReceived` is a `toFixed(2)` value. -/
lemma routesFor_received (amount rate : ℚ) (rt0 : Route)
    (h : rt0 ∈ routesFor amount rate) : ∃ z, rt0.amountReceived = round2 z := by
  simp only [routesFor, List.mem_cons, List.not_mem_nil, or_false] at h
  rcases h with h | h | h <;> subst h <;> exact ⟨_, rfl⟩

/-- The savings baseline is itself a `toFixed(2)` value. -/
lemma traditionalReceived_round2 (amount rate : ℚ) :
    ∃ w, traditionalReceived amount rate = round2 w := ⟨_, rfl⟩

unseal Rat.mul Rat.inv Rat.add Rat.sub in
/-- C6, counterexample: at amount 100 and mid-market rate 17.5 the direct
route receives `(100 - 1) * 17.4475 = 1727.3025`, displayed as `1727.30` —
not `1728.31` as the claim computes. -/
theorem compareRoutes_direct_example_cex :
    ((compareRoutes 100 (35 / 2)).getD 0 default).type = "xrpl_direct"
    ∧ ((compareRoutes 100 (35 / 2)).getD 0 default).amountReceived
        ≠ 172831 / 100 := by decide

unseal Rat.mul Rat.inv Rat.add Rat.sub in
/-- C6, amended: at amount 100 and rate 17.5 the direct route has fee 1.00,
effective rate `17.5 * 0.997 = 17.4475`, and amount received
`round2 ((100 - 1) * 17.4475) = 1727.30`, following the per-route
formulas. -/
theorem compareRoutes_direct_example :
    ((compareRoutes 100 (35 / 2)).getD 0 default).type = "xrpl_direct"
    ∧ ((compareRoutes 100 (35 / 2)).getD 0 default).fee = 1
    ∧ ((compareRoutes 100 (35 / 2)).getD 0 default).exchangeRate = 174475 / 10000
    ∧ ((compareRoutes 100 (35 / 2)).getD 0 default).amountReceived =
        round2 ((100 - 1) * (174475 / 10000))
    ∧ round2 ((100 - 1 : ℚ) * (174475 / 10000)) = 17273 / 10 := by decide

/-- C7, counterexample: an amount of exactly 0 is swallowed by the
JavaScript truthiness missing-fields check rather than rejected as an
invalid amount, and a malformed non-empty currency code passes validation
untouched (the handler has no `InvalidCurrency` path at all). -/
theorem validateCompare_cex :
    validateCompare (some 0) (some "USD") (some "MXN")
        = some CompareError.missingFields
    ∧ some CompareError.missingFields ≠ some CompareError.invalidAmount
    ∧ validateCompare (some 100) (some "USD_FAKE!!") (some "MXN") = none := by
  decide

/-- C7, amended: with all three fields present, compare-routes answers the
minimum-amount failure exactly when the amount is non-zero and below 10;
it accepts any non-empty currency strings and any amount of at least 10;
a zero amount, an absent amount, or an empty currency code all land in the
missing-fields failure instead. -/
theorem validateCompare_spec (a : ℚ) (fc tc : String) :
    (validateCompare (some a) (some fc) (some tc) = some CompareError.invalidAmount
      ↔ a ≠ 0 ∧ fc ≠ "" ∧ tc ≠ "" ∧ a < 10)
    ∧ (validateCompare (some a) (some fc) (some tc) = none
      ↔ a ≠ 0 ∧ fc ≠ "" ∧ tc ≠ "" ∧ 10 ≤ a)
    ∧ ((a = 0 ∨ fc = "" ∨ tc = "") →
        validateCompare (some a) (some fc) (some tc)
          = some CompareError.missingFields)
    ∧ validateCompare none (some fc) (some tc)
        = some CompareError.missingFields := by
  by_cases h1 : a = 0 <;> by_cases h2 : fc = "" <;> by_cases h3 : tc = "" <;>
    by_cases h4 : a < 10 <;>
    simp_all [validateCompare, not_lt]

/-- Closed instance of `validateCompare_spec`: amount 5 with well-formed
currencies is rejected as below the minimum. -/
theorem validateCompare_spec_witness :
    validateCompare (some 5) (some "USD") (some "MXN")
      = some CompareError.invalidAmount :=
  (validateCompare_spec 5 "USD" "MXN").1.mpr
    ⟨by norm_num, by decide, by decide, by norm_num⟩

unseal Rat.mul Rat.inv Rat.add Rat.sub in
/-- C8, counterexample: the response's savings percent is the display
rounding of the ratio, not the exact ratio: for the direct route at amount
100 and rate 17.5 the code shows 13.06 while the exact
`savings / traditional * 100` is `79820/6111 = 13.0617...`. -/
theorem compareRoutes_savingsPercent_cex :
    ((compareRoutes 100 (35 / 2)).getD 0 default).savingsPercent
      ≠ ((compareRoutes 100 (35 / 2)).getD 0 default).savings
        / traditionalReceived 100 (35 / 2) * 100 := by decide

/-- C8, amended: every returned route's savings equals its amount received
minus the traditional route's amount received (exactly — the `toFixed(2)`
display is the identity on such differences), its savings percent equals
the ratio `savings / traditional * 100` rounded to two decimals, and the
traditional route's savings relative to itself is 0. -/
theorem compareRoutes_savings_spec (amount rate : ℚ) (rt : Route)
    (h : rt ∈ compareRoutes amount rate) :
    rt.savings = rt.amountReceived - traditionalReceived amount rate
    ∧ rt.savingsPercent =
        round2 (rt.savings / traditionalReceived amount rate * 100)
    ∧ (rt.type = "bank_transfer" → rt.savings = 0) := by
  obtain ⟨rt0, h0, heq⟩ := mem_compareRoutes_shape amount rate rt h
  obtain ⟨z, hz⟩ := routesFor_received amount rate rt0 h0
  obtain ⟨w, hw⟩ := traditionalReceived_round2 amount rate
  have hsav : rt.savings =
      round2 (rt0.amountReceived - traditionalReceived amount rate) := by rw [heq]
  have hrec : rt.amountReceived = rt0.amountReceived := by rw [heq]
  have hpct : rt.savingsPercent =
      round2 ((rt0.amountReceived - traditionalReceived amount rate)
        / traditionalReceived amount rate * 100) := by rw [heq]
  have htyp : rt.type = rt0.type := by rw [heq]
  have h1 : round2 (rt0.amountReceived - traditionalReceived amount rate)
      = rt0.amountReceived - traditionalReceived amount rate := by
    rw [hz, hw]
    exact round2_sub_round2 z w
  refine ⟨?_, ?_, ?_⟩
  · rw [hsav, hrec, h1]
  · rw [hpct, hsav, h1]
  · intro htype
    rw [htyp] at htype
    rw [hsav]
    simp only [routesFor, List.mem_cons, List.not_mem_nil, or_false] at h0
    rcases h0 with h0 | h0 | h0 <;> subst h0
    · simp at htype
    · rw [show traditionalReceived amount rate =
          Route.amountReceived
            { provider := "Traditional Bank Transfer"
              type := "bank_transfer"
              amountSent := amount
              fee := amount * (5 / 100) + 5
              exchangeRate := rate * (97 / 100)
              estimatedTime := "1-3 business days"
              amountReceived :=
                round2 ((amount - (amount * (5 / 100) + 5)) * rate * (97 / 100))
              savings := 0
              savingsPercent := 0
              recommended := false
              description := "Standard international wire transfer" } from rfl,
        sub_self]
      simp [round2]
    · simp at htype

unseal Rat.mul Rat.inv Rat.add Rat.sub in
/-- Closed instance of `compareRoutes_savings_spec` on the best route of the
amount-100, rate-17.5 response. -/
theorem compareRoutes_savings_spec_witness :
    ((compareRoutes 100 (35 / 2)).getD 0 default).savings
      = ((compareRoutes 100 (35 / 2)).getD 0 default).amountReceived
        - traditionalReceived 100 (35 / 2) :=
  (compareRoutes_savings_spec 100 (35 / 2) _ (by decide)).1

/-- For equal-length currency codes (the 3-letter codes of this system), the
ordered-pair cache key of a pair differs from the key of the reversed
pair. -/
lemma cacheKey_reverse_ne {f t : String} (hlen : f.length = t.length)
    (hne : f ≠ t) : cacheKey f t ≠ cacheKey t f := by
  intro h
  apply hne
  apply String.ext
  have hu : ("_" : String).data = ['_'] := rfl
  have hd : f.data ++ ('_' :: t.data) = t.data ++ ('_' :: f.data) := by
    have h' := congrArg String.data h
    simpa [cacheKey, String.data_append, hu] using h'
  exact (List.append_inj hd hlen).1

/-- C9: after a call that invoked the upstream provider successfully, a
second call for the same ordered pair within the freshness window returns
the identical rate object without invoking upstream and leaves the cache
untouched; once the window has elapsed the provider is invoked again; and
the cached entry is keyed by the ordered pair, so the reversed pair misses
it and goes upstream. -/
theorem getRate_cache_spec (s : RateServiceState) (from_ to_ : String) (q : ℚ)
    (t0 t1 : Nat) (r1 : RateData) (s1 : RateServiceState)
    (h1 : getRate s from_ to_ t0 (Except.ok q) = ⟨r1, s1, true⟩) :
    (∀ u, t1 - t0 < cacheExpiry → getRate s1 from_ to_ t1 u = ⟨r1, s1, false⟩)
    ∧ (∀ u, cacheExpiry ≤ t1 - t0 →
        (getRate s1 from_ to_ t1 u).calledUpstream = true)
    ∧ (s.cache = [] → from_.length = to_.length → from_ ≠ to_ →
        ∀ u, (getRate s1 to_ from_ t1 u).calledUpstream = true) := by
  have hfetch : fetchRate s from_ to_ t0 (Except.ok q) = ⟨r1, s1, true⟩ →
      r1 = ⟨q, t0, from_, to_, false⟩
      ∧ s1 = ⟨(cacheKey from_ to_,
          ⟨⟨q, t0, from_, to_, false⟩, t0⟩) :: s.cache⟩ := by
    intro hf
    unfold fetchRate at hf
    simp only [RateResult.mk.injEq] at hf
    exact ⟨hf.1.symm, hf.2.1.symm⟩
  have hr1s1 : r1 = ⟨q, t0, from_, to_, false⟩
      ∧ s1 = ⟨(cacheKey from_ to_,
          ⟨⟨q, t0, from_, to_, false⟩, t0⟩) :: s.cache⟩ := by
    unfold getRate at h1
    split at h1
    · split at h1
      · simp only [RateResult.mk.injEq] at h1
        exact absurd h1.2.2 (by simp)
      · exact hfetch h1
    · exact hfetch h1
  obtain ⟨hr1, hs1⟩ := hr1s1
  subst hr1
  subst hs1
  refine ⟨?_, ?_, ?_⟩
  · intro u hlt
    simp [getRate, List.lookup, hlt]
  · intro u hge
    have hnlt : ¬(t1 - t0 < cacheExpiry) := not_lt.mpr hge
    simp only [getRate, List.lookup, beq_self_eq_true, hnlt, if_false]
    cases u <;> simp [fetchRate]
  · intro hcache hlen hne u
    have hkey : (cacheKey to_ from_ == cacheKey from_ to_) = false := by
      simp [beq_eq_false_iff_ne]
      exact (cacheKey_reverse_ne hlen hne).symm
    rw [hcache]
    simp only [getRate, List.lookup, hkey]
    cases u <;> simp [fetchRate]

unseal Rat.mul Rat.inv Rat.add Rat.sub in
/-- Closed instance of `getRate_cache_spec`: after the upstream-invoking
USD→MXN call at instant 0, a USD→MXN call at instant 1000 is served from
the cache even when upstream is down, while a MXN→USD call at the same
instant goes upstream. -/
theorem getRate_cache_spec_witness :
    getRate sampleRateState "USD" "MXN" 1000 (Except.error "down")
      = ⟨sampleRateData, sampleRateState, false⟩
    ∧ (getRate sampleRateState "MXN" "USD" 1000 (Except.ok 99)).calledUpstream
      = true := by
  have h := getRate_cache_spec ⟨[]⟩ "USD" "MXN" (35 / 2) 0 1000
    sampleRateData sampleRateState (by decide)
  exact ⟨h.1 (Except.error "down") (by norm_num [cacheExpiry]),
    h.2.2 rfl rfl (by decide) (Except.ok 99)⟩

end SwiftBase
